import Mathlib

deriving instance DecidableEq for Except

/- Verification of the coronatracker RSS scraper (scrape_rss.py): a shallow
embedding of the timestamp normalizer date_convert, the filter/enrich stage
extract_feed_data, and the dedup cache operations read_cache / add_to_cache,
together with theorems settling the specification claims about them. -/

namespace ScrapeRss

/- Python datetime model: an aware datetime as produced by datetime.strptime
with a %z directive.  tzOffsetMinutes is the UTC offset in minutes. -/

structure PyDateTime where
  year : Nat
  month : Nat
  day : Nat
  hour : Nat
  minute : Nat
  second : Nat
  tzOffsetMinutes : Int
deriving DecidableEq

/- Days since 1970-01-01 for a proleptic-Gregorian civil date (year >= 1). -/
def daysFromCivil (y m d : Nat) : Int :=
  let yAdj : Nat := if m ≤ 2 then y - 1 else y
  let era : Nat := yAdj / 400
  let yoe : Nat := yAdj - era * 400
  let mp : Nat := (m + 9) % 12
  let doy : Nat := (153 * mp + 2) / 5 + d - 1
  let doe : Nat := yoe * 365 + yoe / 4 - yoe / 100 + doy
  (Int.ofNat (era * 146097 + doe)) - 719468

/- Inverse of daysFromCivil: the civil date for a day count since the epoch. -/
def civilFromDays (z : Int) : Nat × Nat × Nat :=
  let z2 : Int := z + 719468
  let era : Int := Int.fdiv z2 146097
  let doe : Nat := (z2 - era * 146097).toNat
  let yoe : Nat := (doe - doe / 1460 + doe / 36524 - doe / 146096) / 365
  let y : Int := (yoe : Int) + era * 400
  let doy : Nat := doe - (365 * yoe + yoe / 4 - yoe / 100)
  let mp : Nat := (5 * doy + 2) / 153
  let d : Nat := doy - (153 * mp + 2) / 5 + 1
  let m : Nat := if mp < 10 then mp + 3 else mp - 9
  let yy : Int := if m ≤ 2 then y + 1 else y
  (yy.toNat, m, d)

def pad2 (n : Nat) : String := if n < 10 then "0" ++ toString n else toString n

def pad4 (n : Nat) : String :=
  if n < 10 then "000" ++ toString n
  else if n < 100 then "00" ++ toString n
  else if n < 1000 then "0" ++ toString n
  else toString n

/- strftime with DATE_FORMAT = "%Y-%m-%d %H:%M:%S". -/
def formatCivil (y mo d h mi s : Nat) : String :=
  pad4 y ++ "-" ++ pad2 mo ++ "-" ++ pad2 d ++ " " ++ pad2 h ++ ":" ++ pad2 mi ++ ":" ++ pad2 s

/- dt.astimezone(timezone.utc).strftime(DATE_FORMAT): shift the aware datetime
to UTC, then format canonically.  %z offsets are whole minutes, so seconds are
unaffected by the shift. -/
def astimezoneUtcStrftime (dt : PyDateTime) : String :=
  let total : Int := daysFromCivil dt.year dt.month dt.day * 1440
    + ((dt.hour * 60 + dt.minute : Nat) : Int) - dt.tzOffsetMinutes
  let days : Int := Int.fdiv total 1440
  let rem : Nat := (Int.fmod total 1440).toNat
  let c := civilFromDays days
  formatCivil c.1 c.2.1 c.2.2 (rem / 60) (rem % 60) dt.second

/- dt.strftime(DATE_FORMAT) on a datetime used as-is (no timezone shift);
this is how article.publish_date is formatted in extract_feed_data. -/
def naiveStrftime (dt : PyDateTime) : String :=
  formatCivil dt.year dt.month dt.day dt.hour dt.minute dt.second

/- Regex machinery for the two date patterns of scrape_rss.py, modelled over
List Char with Python re semantics (leftmost match, greedy with backtracking
where the patterns need it).  A step consumes a prefix and returns the matched
characters together with the remaining input. -/

def isWordChar (c : Char) : Bool := c.isAlphanum || c == '_'

abbrev RegexStep := List Char → Option (List Char × List Char)

def pchar (p : Char → Bool) : RegexStep := fun l =>
  match l with
  | c :: rest => if p c then some ([c], rest) else none
  | [] => none

def pseq (a b : RegexStep) : RegexStep := fun l =>
  match a l with
  | some (m1, r1) =>
    match b r1 with
    | some (m2, r2) => some (m1 ++ m2, r2)
    | none => none
  | none => none

def palt (a b : RegexStep) : RegexStep := fun l =>
  match a l with
  | some res => some res
  | none => b l

def prepN (a : RegexStep) : Nat → RegexStep
  | 0 => fun l => some ([], l)
  | n + 1 => pseq a (prepN a n)

/- Greedy word-star: the following token in the RFC-2822 pattern is a space,
which is not a word character, so the maximal run is the only viable choice. -/
def pwordStar : RegexStep := fun l =>
  some (l.takeWhile isWordChar, l.dropWhile isWordChar)

/- Word boundary after a word character: the next character must not be one
(or the input must end). -/
def pEndWordBoundary : RegexStep := fun l =>
  match l with
  | [] => some ([], [])
  | c :: _ => if isWordChar c then none else some ([], l)

/- Word boundary after a non-word character (the space before the hour in the
RFC-2822 pattern): the next character must be a word character. -/
def pMidWordBoundary : RegexStep := fun l =>
  match l with
  | c :: _ => if isWordChar c then some ([], l) else none
  | [] => none

def digitCh : RegexStep := pchar Char.isDigit

def spaceCh : RegexStep := pchar (fun c => c == ' ')

def colonCh : RegexStep := pchar (fun c => c == ':')

def plusCh : RegexStep := pchar (fun c => c == '+')

/- Hour alternation of the RFC-2822 pattern, in source order. -/
def hourAlt : RegexStep :=
  palt (pseq (pchar (fun c => c == '0' || c == '1')) digitCh)
       (pseq (pchar (fun c => c == '2')) (pchar (fun c => c == '0' || c == '1' || c == '2' || c == '3')))

/- Minutes or seconds of the RFC-2822 pattern. -/
def lowSixty : RegexStep :=
  pseq (pchar (fun c => c.isDigit && c ≤ '5')) digitCh

/- Everything of DATE_RFC_2822_REGEX_RULE after the leading day digits. -/
def rfc2822Tail : RegexStep :=
  pseq spaceCh (pseq (pchar (fun c => c == 'A' || c == 'D' || c == 'F' || c == 'J' || c == 'M' || c == 'N' || c == 'O' || c == 'S'))
  (pseq pwordStar (pseq spaceCh (pseq (prepN digitCh 4) (pseq spaceCh (pseq pMidWordBoundary
  (pseq hourAlt (pseq colonCh (pseq lowSixty (pseq colonCh (pseq lowSixty (pseq spaceCh
  (pseq plusCh (pseq (prepN digitCh 4) pEndWordBoundary))))))))))))))

/- DATE_RFC_2822_REGEX_RULE at one position.  The leading quantifier is one or
two digits, greedy, with full backtracking into the tail. -/
def rfc2822MatchAt : RegexStep :=
  palt (pseq (prepN digitCh 2) rfc2822Tail) (pseq digitCh rfc2822Tail)

/- DATE_ISO_8601_REGEX_RULE at one position; the only choice point is the
optional colon in the offset, greedy. -/
def iso8601MatchAt : RegexStep :=
  pseq (prepN digitCh 4) (pseq (pchar (fun c => c == '-')) (pseq (prepN digitCh 2)
  (pseq (pchar (fun c => c == '-')) (pseq (prepN digitCh 2)
  (pseq (pchar (fun c => c == ' ' || c == 'T'))
  (pseq (prepN digitCh 2) (pseq colonCh (pseq (prepN digitCh 2) (pseq colonCh (pseq (prepN digitCh 2)
  (pseq plusCh (pseq (prepN digitCh 2)
  (palt (pseq colonCh (prepN digitCh 2)) (prepN digitCh 2))))))))))))))

/- re.findall(rule, s)[0]: leftmost match in the string, scanning start
positions left to right.  Neither pattern matches the empty string at the
end-of-input position, so scanning the proper suffixes is exhaustive. -/
def reFindFirst (m : RegexStep) : List Char → Option String
  | [] => (m []).map (fun r => String.mk r.1)
  | l@(_ :: rest) =>
    match m l with
    | some r => some (String.mk r.1)
    | none => reFindFirst m rest

/- datetime.strptime model for the two formats used by date_convert. -/

def digitVal (c : Char) : Nat := c.toNat - 48

def digit2 (a b : Char) : Nat := digitVal a * 10 + digitVal b

def num2 : List Char → Option (Nat × List Char)
  | a :: b :: rest => if a.isDigit && b.isDigit then some (digit2 a b, rest) else none
  | _ => none

/- One or two digits, greedy, as the %d %m %H %M %S directives accept. -/
def num1or2 (l : List Char) : Option (Nat × List Char) :=
  match num2 l with
  | some r => some r
  | none =>
    match l with
    | a :: rest => if a.isDigit then some (digitVal a, rest) else none
    | [] => none

def num4 : List Char → Option (Nat × List Char)
  | a :: b :: c :: d :: rest =>
    if a.isDigit && b.isDigit && c.isDigit && d.isDigit then
      some (((digitVal a * 10 + digitVal b) * 10 + digitVal c) * 10 + digitVal d, rest)
    else none
  | _ => none

def litCh (c : Char) : List Char → Option (List Char)
  | x :: rest => if x = c then some rest else none
  | [] => none

def monthAbbrevs : List (List Char) :=
  [['j','a','n'], ['f','e','b'], ['m','a','r'], ['a','p','r'], ['m','a','y'], ['j','u','n'],
   ['j','u','l'], ['a','u','g'], ['s','e','p'], ['o','c','t'], ['n','o','v'], ['d','e','c']]

def monthLookup : List (List Char) → List Char → Nat → Option Nat
  | [], _, _ => none
  | m :: ms, key, i => if m = key then some i else monthLookup ms key (i + 1)

/- The %b directive: a three-letter month abbreviation, case-insensitive. -/
def monthFromAbbrev : List Char → Option (Nat × List Char)
  | a :: b :: c :: rest =>
    match monthLookup monthAbbrevs [a.toLower, b.toLower, c.toLower] 0 with
    | some i => some (i + 1, rest)
    | none => none
  | _ => none

/- The %z directive: a sign, two hour digits, an optional colon, and minute
digits 00-59; the resulting offset must be under a day. -/
def parseTzOffset : List Char → Option (Int × List Char)
  | sgn :: rest =>
    if sgn = '+' || sgn = '-' then
      match num2 rest with
      | some (hh, rest2) =>
        let rest3 := match rest2 with
          | ':' :: r => r
          | _ => rest2
        match rest3 with
        | a :: b :: rest4 =>
          if a.isDigit && b.isDigit && a ≤ '5' then
            let total : Int := (hh * 60 + digit2 a b : Nat)
            if total < 1440 then
              some (if sgn = '+' then total else -total, rest4)
            else none
          else none
        | _ => none
      | none => none
    else none
  | [] => none

def isLeapYear (y : Nat) : Bool := (y % 4 == 0 && y % 100 != 0) || y % 400 == 0

def daysInMonth (y m : Nat) : Nat :=
  if m = 2 then (if isLeapYear y then 29 else 28)
  else if m = 4 ∨ m = 6 ∨ m = 9 ∨ m = 11 then 30 else 31

/- Field validation performed by the datetime constructor. -/
def mkPyDateTime (y mo d h mi s : Nat) (tz : Int) : Option PyDateTime :=
  if 1 ≤ y ∧ y ≤ 9999 ∧ 1 ≤ mo ∧ mo ≤ 12 ∧ 1 ≤ d ∧ d ≤ daysInMonth y mo
      ∧ h ≤ 23 ∧ mi ≤ 59 ∧ s ≤ 59 then
    some ⟨y, mo, d, h, mi, s, tz⟩
  else none

/- datetime.strptime(s, "%d %b %Y %H:%M:%S %z"), DATE_RFC_2822_DATE_FORMAT. -/
def strptimeRfc2822 (str : String) : Option PyDateTime :=
  (num1or2 str.toList).bind fun dr =>
  (litCh ' ' dr.2).bind fun r2 =>
  (monthFromAbbrev r2).bind fun mr =>
  (litCh ' ' mr.2).bind fun r4 =>
  (num4 r4).bind fun yr =>
  (litCh ' ' yr.2).bind fun r6 =>
  (num1or2 r6).bind fun hr =>
  (litCh ':' hr.2).bind fun r8 =>
  (num1or2 r8).bind fun mir =>
  (litCh ':' mir.2).bind fun r10 =>
  (num1or2 r10).bind fun ser =>
  (litCh ' ' ser.2).bind fun r12 =>
  (parseTzOffset r12).bind fun tzr =>
  if tzr.2 = [] then mkPyDateTime yr.1 mr.1 dr.1 hr.1 mir.1 ser.1 tzr.1 else none

/- datetime.strptime(s, "%Y-%m-%dT%H:%M:%S%z"), ISO_8601_DATE_FORMAT.  The
separator is the literal character T: a space there fails the parse. -/
def strptimeIso8601 (str : String) : Option PyDateTime :=
  (num4 str.toList).bind fun yr =>
  (litCh '-' yr.2).bind fun r2 =>
  (num1or2 r2).bind fun mor =>
  (litCh '-' mor.2).bind fun r4 =>
  (num1or2 r4).bind fun dr =>
  (litCh 'T' dr.2).bind fun r6 =>
  (num1or2 r6).bind fun hr =>
  (litCh ':' hr.2).bind fun r8 =>
  (num1or2 r8).bind fun mir =>
  (litCh ':' mir.2).bind fun r10 =>
  (num1or2 r10).bind fun ser =>
  (parseTzOffset ser.2).bind fun tzr =>
  if tzr.2 = [] then mkPyDateTime yr.1 mor.1 dr.1 hr.1 mir.1 ser.1 tzr.1 else none

/- date_convert from scrape_rss.py.  The source tries the RFC-2822 regex, then
the ISO-8601 regex, parsing the first match with the corresponding strptime
format; with no match it assigns the raw string itself and then unconditionally
calls .astimezone on it, which raises AttributeError on a str.  Failures are
modelled as Except.error carrying the Python exception kind. -/
def date_convert (date_string : String) : Except String String :=
  match reFindFirst rfc2822MatchAt date_string.toList with
  | some datetime_str =>
    match strptimeRfc2822 datetime_str with
    | some dt => Except.ok (astimezoneUtcStrftime dt)
    | none => Except.error "ValueError: strptime"
  | none =>
    match reFindFirst iso8601MatchAt date_string.toList with
    | some datetime_str =>
      match strptimeIso8601 datetime_str with
      | some dt => Except.ok (astimezoneUtcStrftime dt)
      | none => Except.error "ValueError: strptime"
    | none => Except.error "AttributeError: str object has no attribute astimezone"

/- Keyword filter: set(re.findall(r"w-plus", s.lower())).intersection(CORONA_KEYWORDS),
with the word tokenizer modelled over the ASCII word characters. -/

def wordTokensAux : List Char → List Char → List String
  | [], acc => if acc = [] then [] else [String.mk acc.reverse]
  | c :: rest, acc =>
    if isWordChar c then wordTokensAux rest (c :: acc)
    else if acc = [] then wordTokensAux rest []
    else String.mk acc.reverse :: wordTokensAux rest []

def reFindAllWords (s : String) : List String := wordTokensAux s.toList []

/- str.lower, over the character list. -/
def pyLower (s : String) : String := String.mk (s.toList.map Char.toLower)

def CORONA_KEYWORDS : List String := ["corona", "coronavirus"]

/- The stage proceeds with an item exactly when a keyword occurs among the
words of the lowered title or of the lowered description; the source drops the
item when both intersections are empty. -/
def keywordRelevant (res_title res_desc : String) : Bool :=
  (reFindAllWords (pyLower res_title)).any (fun w => CORONA_KEYWORDS.contains w) ||
  (reFindAllWords (pyLower res_desc)).any (fun w => CORONA_KEYWORDS.contains w)

/- re.sub(r"https-scheme-www", "", source_url): delete every occurrence of
http:// or https:// followed by an optional www. prefix. -/

def expectChars : List Char → List Char → Option (List Char)
  | [], l => some l
  | c :: cs, x :: xs => if x = c then expectChars cs xs else none
  | _ :: _, [] => none

def schemeMatchAt (l : List Char) : Option (List Char) :=
  match expectChars ['h','t','t','p','s',':','/','/'] l with
  | some r => some r
  | none => expectChars ['h','t','t','p',':','/','/'] l

def wwwOpt (l : List Char) : List Char :=
  match expectChars ['w','w','w','.'] l with
  | some r => r
  | none => l

/- Fuelled scan; a successful scheme match consumes at least seven characters,
so fuel equal to the length of the input is never exhausted. -/
def subSchemeFuel : Nat → List Char → List Char
  | 0, l => l
  | _ + 1, [] => []
  | n + 1, c :: rest =>
    match schemeMatchAt (c :: rest) with
    | some r => subSchemeFuel n (wwwOpt r)
    | none => c :: subSchemeFuel n rest

def stripSchemeSub (s : String) : String :=
  String.mk (subSchemeFuel s.toList.length s.toList)

/- Data model of the filter/enrich stage. -/

/- Field schema of one feed source; publish_date is present exactly for the
sources whose dialect declares a publish-date tag. -/
structure Schema where
  title : String
  description : String
  url : String
  publish_date : Option String

/- One entry node: find models BeautifulSoup find-by-tag-name followed by
.text, returning none when the tag is absent.  Attribute access such as
feed_source.pubDate is find applied to that tag name. -/
structure FeedEntry where
  find : String → Option String

/- Document-level fallback field of the parsed feed page. -/
structure SoupPage where
  lastBuildDate : Option String

/- Result of the content-extraction collaborator (newspaper.Article after
download, parse and nlp).  og_description models the presence of
meta_data og description; article_modified_time models
meta_data article modified_time. -/
structure Article where
  og_description : Option String
  meta_lang : String
  source_url : String
  authors : List String
  publish_date : Option PyDateTime
  article_modified_time : Option String
  text : String
  top_image : String

structure RssRecord where
  title : String
  url : String
  addedOn : String
  description : String
  language : String
  siteName : String
  author : String
  publishedAt : String
  content : String
  urlToImage : String
deriving DecidableEq

/- One work item of EXTRACT_FEED_QUEUE: the parsed document, the source
schema and the entry node.  The language tag only selects the RSS_STACK
bucket and is elided. -/
structure WorkItem where
  soup_page : SoupPage
  schema : Schema
  feed_source : FeedEntry

/- Mutable state touched by the stage: the in-memory CACHE (as a list whose
membership is the set), the persisted cache file contents, the RSS_STACK
record list, and the log of content-extraction calls made. -/
structure ScrapeState where
  cache : List String
  cacheFile : String
  rss_stack : List RssRecord
  extractCalls : List String
deriving DecidableEq

/- add_to_cache: append the url to the persisted file, then to the set. -/
def add_to_cache (url : String) (s : ScrapeState) : ScrapeState :=
  { s with cache := s.cache ++ [url], cacheFile := s.cacheFile ++ url ++ "\n" }

/- publishedAt resolution of extract_feed_data, in source branch order. -/
def resolve_published_at (item : WorkItem) (article : Article) : Except String String :=
  match item.schema.publish_date with
  | some tagName =>
    match item.feed_source.find tagName with
    | some v => date_convert v
    | none => Except.error "AttributeError: NoneType has no attribute text"
  | none =>
    match item.feed_source.find "pubDate" with
    | some v => date_convert v
    | none =>
      match article.publish_date with
      | some dt => Except.ok (naiveStrftime dt)
      | none =>
        match article.article_modified_time with
        | some v => date_convert v
        | none =>
          match item.soup_page.lastBuildDate with
          | some v => date_convert v
          | none => Except.ok ""

/- The body of the extract_feed_data loop for one dequeued item.  extract is
the content-extraction collaborator, now_utc the addedOn stamp.  In source
order: extract title and description, drop on keyword miss, extract url, drop
when the url is in CACHE, otherwise (unless skip_cache) add_to_cache, then
extract the article and assemble the record.  An uncaught Python exception is
an Except.error. -/
def extract_feed_step (skip_cache : Bool) (extract : String → Article) (now_utc : String)
    (item : WorkItem) (s : ScrapeState) : Except String ScrapeState :=
  match item.feed_source.find item.schema.title with
  | none => Except.error "AttributeError: NoneType has no attribute text"
  | some res_title =>
  match item.feed_source.find item.schema.description with
  | none => Except.error "AttributeError: NoneType has no attribute text"
  | some res_desc =>
  if keywordRelevant res_title res_desc then
    match item.feed_source.find item.schema.url with
    | none => Except.error "AttributeError: NoneType has no attribute text"
    | some url =>
    if url ∈ s.cache then Except.ok s
    else
      let s1 := if skip_cache then s else add_to_cache url s
      let article := extract url
      let s2 := { s1 with extractCalls := s1.extractCalls ++ [url] }
      let description :=
        match article.og_description with
        | some d => if 0 < d.length then d else res_desc
        | none => res_desc
      match resolve_published_at item article with
      | Except.error e => Except.error e
      | Except.ok publishedAt =>
        Except.ok { s2 with rss_stack := s2.rss_stack ++ [{
          title := res_title
          url := url
          addedOn := now_utc
          description := description
          language := article.meta_lang
          siteName := stripSchemeSub article.source_url
          author := String.intercalate ", " article.authors
          publishedAt := publishedAt
          content := article.text
          urlToImage := article.top_image }] }
  else Except.ok s

/- One worker draining EXTRACT_FEED_QUEUE: process the items in order; an
uncaught exception ends the worker, leaving the remaining items unprocessed. -/
def extract_feed_data (skip_cache : Bool) (extract : String → Article) (now_utc : String) :
    List WorkItem → ScrapeState → Except String ScrapeState
  | [], s => Except.ok s
  | item :: rest, s =>
    match extract_feed_step skip_cache extract now_utc item s with
    | Except.error e => Except.error e
    | Except.ok s2 => extract_feed_data skip_cache extract now_utc rest s2

/- Python str.split on a single newline separator. -/
def pySplitNl : List Char → List (List Char)
  | [] => [[]]
  | c :: rest =>
    if c = '\n' then [] :: pySplitNl rest
    else
      match pySplitNl rest with
      | [] => [[c]]
      | h :: t => (c :: h) :: t

/- read_cache: split the persisted file contents on newlines and add every
row to CACHE, the trailing empty row included. -/
def read_cache (stream : String) : List String :=
  (pySplitNl stream.toList).map String.mk

/- Top-level wiring around the stage: when READ_ALL_SKIP_CACHE is set the
cache is not loaded (CACHE stays empty) and never written; otherwise CACHE is
populated from the persisted file first. -/
def runScrape (skip_cache : Bool) (cacheFileContents : String) (extract : String → Article)
    (now_utc : String) (items : List WorkItem) : Except String ScrapeState :=
  let cache0 := if skip_cache then [] else read_cache cacheFileContents
  extract_feed_data skip_cache extract now_utc items
    { cache := cache0, cacheFile := cacheFileContents, rss_stack := [], extractCalls := [] }

/- Predicates over work items used by the stage lemmas. -/

/- The title and description lookups of the item succeed. -/
def fieldsPresent (item : WorkItem) : Prop :=
  ∃ t d, item.feed_source.find item.schema.title = some t ∧
    item.feed_source.find item.schema.description = some d

/- The item survives the keyword filter. -/
def itemPassesKeywords (item : WorkItem) : Prop :=
  ∃ t d, item.feed_source.find item.schema.title = some t ∧
    item.feed_source.find item.schema.description = some d ∧
    keywordRelevant t d = true

def itemUrl (item : WorkItem) : Option String :=
  item.feed_source.find item.schema.url

/- The url of the item resolves and is already in the given cache. -/
def markedSeen (item : WorkItem) (cache : List String) : Prop :=
  ∃ u, itemUrl item = some u ∧ u ∈ cache

/- Stage lemmas. -/

theorem step_keyword_drop (sk : Bool) (ex : String → Article) (now_utc : String)
    (item : WorkItem) (s : ScrapeState) (t d : String)
    (ht : item.feed_source.find item.schema.title = some t)
    (hd : item.feed_source.find item.schema.description = some d)
    (hk : keywordRelevant t d = false) :
    extract_feed_step sk ex now_utc item s = Except.ok s := by
  simp [extract_feed_step, ht, hd, hk]

theorem step_cache_hit (sk : Bool) (ex : String → Article) (now_utc : String)
    (item : WorkItem) (s : ScrapeState) (t d u : String)
    (ht : item.feed_source.find item.schema.title = some t)
    (hd : item.feed_source.find item.schema.description = some d)
    (hu : item.feed_source.find item.schema.url = some u)
    (hmem : u ∈ s.cache) :
    extract_feed_step sk ex now_utc item s = Except.ok s := by
  by_cases hk : keywordRelevant t d
  · simp [extract_feed_step, ht, hd, hu, hk, hmem]
  · simp [extract_feed_step, ht, hd, hu, eq_false hk]

theorem step_ok_inv (sk : Bool) (ex : String → Article) (now_utc : String)
    (item : WorkItem) (s s2 : ScrapeState)
    (h : extract_feed_step sk ex now_utc item s = Except.ok s2) :
    (∀ x ∈ s.cache, x ∈ s2.cache) ∧ fieldsPresent item ∧
      (sk = false → itemPassesKeywords item → markedSeen item s2.cache) := by
  unfold extract_feed_step at h
  split at h
  · cases h
  next res_title hteq =>
  split at h
  · cases h
  next res_desc hdeq =>
  split at h
  case isTrue hkw =>
    split at h
    · cases h
    next url hueq =>
    split at h
    case isTrue hmem =>
      cases h
      refine ⟨fun x hx => hx, ⟨res_title, res_desc, hteq, hdeq⟩, fun _ _ => ⟨url, ?_, hmem⟩⟩
      simp [itemUrl, hueq]
    case isFalse hmem =>
      simp only at h
      split at h
      · cases h
      next publishedAt hres =>
      cases h
      constructor
      · intro x hx
        cases sk <;> simp [add_to_cache, hx]
      refine ⟨⟨res_title, res_desc, hteq, hdeq⟩, fun hsk _ => ⟨url, ?_, ?_⟩⟩
      · simp [itemUrl, hueq]
      · subst hsk
        simp [add_to_cache]
  case isFalse hkw =>
    cases h
    refine ⟨fun x hx => hx, ⟨res_title, res_desc, hteq, hdeq⟩, fun _ hp => absurd ?_ hkw⟩
    obtain ⟨t, d, ht, hd, hk⟩ := hp
    rw [hteq] at ht
    rw [hdeq] at hd
    cases ht
    cases hd
    exact hk

theorem drain_cache_mono (sk : Bool) (ex : String → Article) (now_utc : String)
    (items : List WorkItem) (s s1 : ScrapeState)
    (h : extract_feed_data sk ex now_utc items s = Except.ok s1) :
    ∀ x ∈ s.cache, x ∈ s1.cache := by
  induction items generalizing s with
  | nil =>
    rw [extract_feed_data] at h
    cases h
    exact fun x hx => hx
  | cons item rest ih =>
    rw [extract_feed_data] at h
    split at h
    · cases h
    next s2 hstep =>
      exact fun x hx => ih s2 h x ((step_ok_inv sk ex now_utc item s s2 hstep).1 x hx)

theorem drain_marks (ex : String → Article) (now_utc : String)
    (items : List WorkItem) (s s1 : ScrapeState)
    (h : extract_feed_data false ex now_utc items s = Except.ok s1) :
    ∀ item ∈ items, fieldsPresent item ∧ (itemPassesKeywords item → markedSeen item s1.cache) := by
  induction items generalizing s with
  | nil => simp
  | cons item rest ih =>
    rw [extract_feed_data] at h
    split at h
    · cases h
    next s2 hstep =>
      intro it hit
      rcases List.mem_cons.mp hit with heq | htail
      · subst heq
        obtain ⟨_, hfields, hmarked⟩ := step_ok_inv false ex now_utc it s s2 hstep
        refine ⟨hfields, fun hp => ?_⟩
        obtain ⟨u, hu, hmem⟩ := hmarked rfl hp
        exact ⟨u, hu, drain_cache_mono false ex now_utc rest s2 s1 h u hmem⟩
      · exact ih s2 h it htail

theorem drain_noop (sk : Bool) (ex : String → Article) (now_utc : String)
    (items : List WorkItem) (s : ScrapeState)
    (h : ∀ item ∈ items, fieldsPresent item ∧ (itemPassesKeywords item → markedSeen item s.cache)) :
    extract_feed_data sk ex now_utc items s = Except.ok s := by
  induction items with
  | nil => rfl
  | cons item rest ih =>
    obtain ⟨⟨t, d, ht, hd⟩, hmark⟩ := h item (List.mem_cons_self item rest)
    have hstep : extract_feed_step sk ex now_utc item s = Except.ok s := by
      by_cases hk : keywordRelevant t d
      · obtain ⟨u, hu, hmem⟩ := hmark ⟨t, d, ht, hd, hk⟩
        exact step_cache_hit sk ex now_utc item s t d u ht hd hu hmem
      · exact step_keyword_drop sk ex now_utc item s t d ht hd (eq_false_of_ne_true hk)
    rw [extract_feed_data, hstep]
    exact ih (fun it hit => h it (List.mem_cons_of_mem item hit))

theorem step_skip_ok_inv (ex : String → Article) (now_utc : String)
    (item : WorkItem) (s s2 : ScrapeState)
    (h : extract_feed_step true ex now_utc item s = Except.ok s2) :
    s2.cache = s.cache ∧ s2.cacheFile = s.cacheFile := by
  unfold extract_feed_step at h
  split at h
  · cases h
  split at h
  · cases h
  split at h
  case isTrue =>
    split at h
    · cases h
    split at h
    case isTrue => cases h; exact ⟨rfl, rfl⟩
    case isFalse =>
      simp only at h
      split at h
      · cases h
      cases h
      exact ⟨rfl, rfl⟩
  case isFalse => cases h; exact ⟨rfl, rfl⟩

theorem drain_skip_ok_inv (ex : String → Article) (now_utc : String)
    (items : List WorkItem) (s s1 : ScrapeState)
    (h : extract_feed_data true ex now_utc items s = Except.ok s1) :
    s1.cache = s.cache ∧ s1.cacheFile = s.cacheFile := by
  induction items generalizing s with
  | nil => rw [extract_feed_data] at h; cases h; exact ⟨rfl, rfl⟩
  | cons item rest ih =>
    rw [extract_feed_data] at h
    split at h
    · cases h
    next s2 hstep =>
      obtain ⟨h1, h2⟩ := ih s2 h
      obtain ⟨h3, h4⟩ := step_skip_ok_inv ex now_utc item s s2 hstep
      exact ⟨h1.trans h3, h2.trans h4⟩

/- Emission shape of one accepted item: the record appended to RSS_STACK and
the cache/file/extraction effects, for either cache mode. -/
theorem step_emit (sk : Bool) (ex : String → Article) (now_utc : String)
    (item : WorkItem) (s : ScrapeState) (t d u pA : String)
    (ht : item.feed_source.find item.schema.title = some t)
    (hd : item.feed_source.find item.schema.description = some d)
    (hk : keywordRelevant t d = true)
    (hu : item.feed_source.find item.schema.url = some u)
    (hno : u ∉ s.cache)
    (hres : resolve_published_at item (ex u) = Except.ok pA) :
    extract_feed_step sk ex now_utc item s = Except.ok
      { cache := if sk then s.cache else s.cache ++ [u],
        cacheFile := if sk then s.cacheFile else s.cacheFile ++ u ++ "\n",
        rss_stack := s.rss_stack ++ [⟨t, u, now_utc,
          (match (ex u).og_description with
            | some dd => if 0 < dd.length then dd else d
            | none => d),
          (ex u).meta_lang, stripSchemeSub (ex u).source_url,
          String.intercalate ", " (ex u).authors, pA, (ex u).text, (ex u).top_image⟩],
        extractCalls := s.extractCalls ++ [u] } := by
  cases sk <;> simp [extract_feed_step, add_to_cache, ht, hd, hk, hu, hno, hres]

theorem step_mode_frame (ex : String → Article) (now_utc : String)
    (item : WorkItem) (s : ScrapeState) :
    (extract_feed_step true ex now_utc item s).map (fun x => (x.rss_stack, x.extractCalls))
      = (extract_feed_step false ex now_utc item s).map (fun x => (x.rss_stack, x.extractCalls)) := by
  unfold extract_feed_step
  split
  · rfl
  split
  · rfl
  split
  case isTrue =>
    split
    · rfl
    split
    case isTrue => rfl
    case isFalse =>
      simp only
      split <;> simp [Except.map, add_to_cache]
  case isFalse => rfl

/- Lemmas about read_cache on newline-terminated persisted states. -/

theorem string_data_append (a b : String) : (a ++ b).data = a.data ++ b.data := by
  cases a
  cases b
  rfl

theorem pySplitNl_line (l r : List Char) (h : '\n' ∉ l) :
    pySplitNl (l ++ '\n' :: r) = l :: pySplitNl r := by
  induction l with
  | nil => simp [pySplitNl]
  | cons c cs ih =>
    have hc : ¬ c = '\n' := fun e => h (e ▸ List.mem_cons_self c cs)
    have hcs : '\n' ∉ cs := fun e => h (List.mem_cons_of_mem c e)
    simp [pySplitNl, hc, ih hcs]

/- A persisted cache file of newline-terminated URL lines. -/
def joinLines : List String → String
  | [] => ""
  | u :: rest => u ++ "\n" ++ joinLines rest

/- Concrete collaborator results and work items used by the witnesses. -/

def sampleArticle : Article :=
  ⟨none, "en", "https://www.example.com/a", ["Ann B"], none, none, "body", "img"⟩

def sampleExtract : String → Article := fun _ => sampleArticle

def entryCorona : FeedEntry := ⟨fun tag =>
  if tag = "title" then some "Corona update"
  else if tag = "description" then some "case counts"
  else if tag = "link" then some "https://example.com/x"
  else if tag = "pubDate" then some "25 Jan 2020 01:52:22 +0000"
  else none⟩

def rssSchema : Schema := ⟨"title", "description", "link", none⟩

def itemCorona : WorkItem := ⟨⟨none⟩, rssSchema, entryCorona⟩

def entryWeather : FeedEntry := ⟨fun tag =>
  if tag = "title" then some "Weather report"
  else if tag = "description" then some "sunny tomorrow"
  else if tag = "link" then some "https://example.com/w"
  else none⟩

def itemWeather : WorkItem := ⟨⟨none⟩, rssSchema, entryWeather⟩

def cnaEntry : FeedEntry := ⟨fun tag =>
  if tag = "title" then some "Coronavirus latest"
  else if tag = "news:keywords" then some "coronavirus"
  else if tag = "loc" then some "https://cna.example/y"
  else if tag = "news:publication_date" then some "2020-01-31T22:10:38+0800"
  else if tag = "pubDate" then some "25 Jan 2020 01:52:22 +0000"
  else none⟩

def cnaSchema : Schema := ⟨"title", "news:keywords", "loc", some "news:publication_date"⟩

def cnaItem : WorkItem := ⟨⟨none⟩, cnaSchema, cnaEntry⟩

def sampleRecord : RssRecord :=
  ⟨"Corona update", "https://example.com/x", "2020-02-01 00:00:00", "case counts", "en",
    "example.com/a", "Ann B", "2020-01-25 01:52:22", "body", "img"⟩

def sampleRunResult : ScrapeState :=
  ⟨["https://example.com/x"], "https://example.com/x\n", [sampleRecord], ["https://example.com/x"]⟩

/- Claim theorems. -/

/-- C1 counterexample: date_convert maps the ISO-8601 example to
2020-01-31 14:10:38 UTC, not to the 14:38:38 value the claim states. -/
theorem date_convert_iso_example_not_1438 :
    date_convert "2020-01-31T22:10:38+0800" ≠ Except.ok "2020-01-31 14:38:38" := by decide

/-- C1 amended: date_convert maps the RFC-2822 example to 2020-01-25 01:52:22
and the ISO-8601 example to 2020-01-31 14:10:38, both canonical UTC. -/
theorem date_convert_normalizes_examples :
    date_convert "25 Jan 2020 01:52:22 +0000" = Except.ok "2020-01-25 01:52:22" ∧
    date_convert "2020-01-31T22:10:38+0800" = Except.ok "2020-01-31 14:10:38" := by decide

/-- C2: on the input with no pattern match, date_convert does not return the
input unchanged: the fallback assigns the raw string and then calls astimezone
on it, raising AttributeError. -/
theorem date_convert_no_match_raises :
    reFindFirst rfc2822MatchAt "not a date".toList = none ∧
    reFindFirst iso8601MatchAt "not a date".toList = none ∧
    date_convert "not a date"
      = Except.error "AttributeError: str object has no attribute astimezone" := by decide

/-- C3: an entry item whose schema-extracted URL is already a member of the
dedup cache is dropped before enrichment: the step returns the state
unchanged, so its extraction-call log gains no entry and RSS_STACK gains no
record. -/
theorem cache_member_item_dropped (sk : Bool) (ex : String → Article) (now_utc : String)
    (item : WorkItem) (s : ScrapeState) (t d u : String)
    (ht : item.feed_source.find item.schema.title = some t)
    (hd : item.feed_source.find item.schema.description = some d)
    (hu : itemUrl item = some u)
    (hmem : u ∈ s.cache) :
    extract_feed_step sk ex now_utc item s = Except.ok s :=
  step_cache_hit sk ex now_utc item s t d u ht hd hu hmem

/-- Witness for C3 at a concrete item whose URL is cached. -/
theorem cache_member_item_dropped_witness :
    extract_feed_step false sampleExtract "2020-02-01 00:00:00" itemCorona
        ⟨["https://example.com/x"], "https://example.com/x\n", [], []⟩
      = Except.ok ⟨["https://example.com/x"], "https://example.com/x\n", [], []⟩ :=
  cache_member_item_dropped false sampleExtract "2020-02-01 00:00:00" itemCorona
    ⟨["https://example.com/x"], "https://example.com/x\n", [], []⟩
    "Corona update" "case counts" "https://example.com/x"
    (by decide) (by decide) (by decide) (by decide)

/-- C4: items whose title and description word sets are both disjoint from the
keyword set are dropped with no further work: processing any list of such
items returns the state unchanged, so there is no cache access, no extraction
call and no record; a document of only such entries yields zero records. -/
theorem keyword_miss_items_dropped (sk : Bool) (ex : String → Article) (now_utc : String)
    (items : List WorkItem) (s : ScrapeState)
    (h : ∀ item ∈ items, ∃ t d,
      item.feed_source.find item.schema.title = some t ∧
      item.feed_source.find item.schema.description = some d ∧
      keywordRelevant t d = false) :
    extract_feed_data sk ex now_utc items s = Except.ok s := by
  refine drain_noop sk ex now_utc items s (fun item hit => ?_)
  obtain ⟨t, d, ht, hd, hk⟩ := h item hit
  refine ⟨⟨t, d, ht, hd⟩, fun hp => ?_⟩
  obtain ⟨t2, d2, ht2, hd2, hk2⟩ := hp
  rw [ht] at ht2
  rw [hd] at hd2
  cases ht2
  cases hd2
  rw [hk2] at hk
  exact absurd hk (by simp)

/-- Witness for C4 at a concrete keyword-free document. -/
theorem keyword_miss_items_dropped_witness :
    extract_feed_data false sampleExtract "2020-02-01 00:00:00" [itemWeather] ⟨[], "", [], []⟩
      = Except.ok ⟨[], "", [], []⟩ :=
  keyword_miss_items_dropped false sampleExtract "2020-02-01 00:00:00" [itemWeather]
    ⟨[], "", [], []⟩
    (fun item hit => by
      rw [List.mem_singleton] at hit
      subst hit
      exact ⟨"Weather report", "sunny tomorrow", by decide, by decide, by decide⟩)

/-- C5: a second persistence-mode run of the stage over the same item list,
starting from the cache state a completed first run produced, returns its
initial state unchanged: zero records are emitted, every keyword-passing item
being found in the cache. -/
theorem second_run_emits_nothing (ex : String → Article) (now_utc : String)
    (items : List WorkItem) (c0 : List String) (f0 : String) (s1 : ScrapeState)
    (h1 : extract_feed_data false ex now_utc items ⟨c0, f0, [], []⟩ = Except.ok s1) :
    extract_feed_data false ex now_utc items ⟨s1.cache, s1.cacheFile, [], []⟩
      = Except.ok ⟨s1.cache, s1.cacheFile, [], []⟩ :=
  drain_noop false ex now_utc items ⟨s1.cache, s1.cacheFile, [], []⟩
    (fun item hit => drain_marks ex now_utc items ⟨c0, f0, [], []⟩ s1 h1 item hit)

/-- Witness for C5 at a concrete two-item run from an empty cache. -/
theorem second_run_emits_nothing_witness :
    extract_feed_data false sampleExtract "2020-02-01 00:00:00" [itemCorona, itemWeather]
        ⟨sampleRunResult.cache, sampleRunResult.cacheFile, [], []⟩
      = Except.ok ⟨sampleRunResult.cache, sampleRunResult.cacheFile, [], []⟩ :=
  second_run_emits_nothing sampleExtract "2020-02-01 00:00:00" [itemCorona, itemWeather]
    [] "" sampleRunResult (by decide)

/-- C6: when the schema declares a publish-date field and the entry also
carries a pubDate with a different value, the emitted record's publishedAt is
the normalized schema-declared field, not the normalized pubDate. -/
theorem schema_publish_date_wins (sk : Bool) (ex : String → Article) (now_utc : String)
    (item : WorkItem) (s : ScrapeState) (t d u tagName v w dv dw : String)
    (htag : item.schema.publish_date = some tagName)
    (ht : item.feed_source.find item.schema.title = some t)
    (hd : item.feed_source.find item.schema.description = some d)
    (hk : keywordRelevant t d = true)
    (hu : item.feed_source.find item.schema.url = some u)
    (hno : u ∉ s.cache)
    (hv : item.feed_source.find tagName = some v)
    (hw : item.feed_source.find "pubDate" = some w)
    (hvw : v ≠ w)
    (hdv : date_convert v = Except.ok dv)
    (hdw : date_convert w = Except.ok dw)
    (hne : dv ≠ dw) :
    ∃ s2 rec, extract_feed_step sk ex now_utc item s = Except.ok s2 ∧
      s2.rss_stack = s.rss_stack ++ [rec] ∧ rec.publishedAt = dv ∧ rec.publishedAt ≠ dw := by
  have hres : resolve_published_at item (ex u) = Except.ok dv := by
    simp [resolve_published_at, htag, hv, hdv]
  exact ⟨_, _, step_emit sk ex now_utc item s t d u dv ht hd hk hu hno hres, rfl, rfl, hne⟩

/-- Witness for C6 at a concrete sitemap-style item carrying both fields. -/
theorem schema_publish_date_wins_witness :
    ∃ s2 rec, extract_feed_step false sampleExtract "2020-02-01 00:00:00" cnaItem ⟨[], "", [], []⟩
        = Except.ok s2 ∧
      s2.rss_stack = ([] : List RssRecord) ++ [rec] ∧
      rec.publishedAt = "2020-01-31 14:10:38" ∧ rec.publishedAt ≠ "2020-01-25 01:52:22" :=
  schema_publish_date_wins false sampleExtract "2020-02-01 00:00:00" cnaItem ⟨[], "", [], []⟩
    "Coronavirus latest" "coronavirus" "https://cna.example/y" "news:publication_date"
    "2020-01-31T22:10:38+0800" "25 Jan 2020 01:52:22 +0000"
    "2020-01-31 14:10:38" "2020-01-25 01:52:22"
    (by decide) (by decide) (by decide) (by decide) (by decide) (by decide) (by decide)
    (by decide) (by decide) (by decide) (by decide) (by decide)

/-- C7 counterexample: loading a one-line persisted state makes the empty
string a member of the cache, contrary to the claim that the trailing empty
line is skipped. -/
theorem read_cache_keeps_trailing_empty : "" ∈ read_cache "http://a\n" := by decide

/-- C7 amended: loading a persisted state of n newline-terminated URL lines
populates the cache with exactly those n URLs plus the empty string coming
from the trailing empty split fragment. -/
theorem read_cache_loads_urls_and_empty (urls : List String)
    (h : ∀ u ∈ urls, '\n' ∉ u.toList) :
    read_cache (joinLines urls) = urls ++ [""] := by
  induction urls with
  | nil => rfl
  | cons u rest ih =>
    have hdata : (joinLines (u :: rest)).toList = u.toList ++ '\n' :: (joinLines rest).toList := by
      show ((u ++ "\n") ++ joinLines rest).data = u.data ++ '\n' :: (joinLines rest).data
      rw [string_data_append, string_data_append]
      simp
    rw [read_cache, hdata, pySplitNl_line _ _ (h u (List.mem_cons_self u rest)), List.map_cons]
    have hmk : String.mk u.toList = u := rfl
    have ih2 := ih (fun v hv => h v (List.mem_cons_of_mem u hv))
    rw [read_cache] at ih2
    rw [hmk, ih2]
    rfl

/-- Witness for C7 amended at a concrete two-line persisted state. -/
theorem read_cache_loads_urls_and_empty_witness :
    read_cache (joinLines ["http://a", "http://b"]) = ["http://a", "http://b"] ++ [""] :=
  read_cache_loads_urls_and_empty ["http://a", "http://b"] (by decide)

/-- C8: cache-bypass mode performs no load (the run starts from an empty
in-memory cache, ignoring the persisted contents) and no add (in-memory cache
and persisted file pass through the whole run unchanged), while any one item
yields the same records and extraction calls as persistence mode does from the
same state. -/
theorem skip_cache_frame (p : String) (ex : String → Article) (now_utc : String)
    (items : List WorkItem) (item : WorkItem) (s : ScrapeState) :
    runScrape true p ex now_utc items
        = extract_feed_data true ex now_utc items ⟨[], p, [], []⟩
    ∧ (extract_feed_data true ex now_utc items s).map (fun x => (x.cache, x.cacheFile))
        = (extract_feed_data true ex now_utc items s).map (fun _ => (s.cache, s.cacheFile))
    ∧ (extract_feed_step true ex now_utc item s).map (fun x => (x.rss_stack, x.extractCalls))
        = (extract_feed_step false ex now_utc item s).map (fun x => (x.rss_stack, x.extractCalls)) := by
  refine ⟨rfl, ?_, step_mode_frame ex now_utc item s⟩
  cases hE : extract_feed_data true ex now_utc items s with
  | error e => rfl
  | ok s1 =>
    obtain ⟨h1, h2⟩ := drain_skip_ok_inv ex now_utc items s s1 hE
    simp [Except.map, h1, h2]

/-- C9 counterexample: the RFC-2822 pattern requires a literal plus sign, so
the negative-offset date neither matches nor converts; date_convert falls
through both patterns and raises. -/
theorem rfc2822_negative_offset_rejected :
    reFindFirst rfc2822MatchAt "25 Jan 2020 01:52:22 -0500".toList = none ∧
    date_convert "25 Jan 2020 01:52:22 -0500"
      = Except.error "AttributeError: str object has no attribute astimezone" := by decide

/-- C9 amended: Pattern A recognizes RFC-2822-style dates with positive
offsets only: the plus-offset example matches and converts to canonical UTC,
while the same date with offset -0500 is not matched by either pattern and is
not converted. -/
theorem rfc2822_plus_offsets_only :
    reFindFirst rfc2822MatchAt "25 Jan 2020 01:52:22 +0000".toList
        = some "25 Jan 2020 01:52:22 +0000" ∧
    date_convert "25 Jan 2020 01:52:22 +0000" = Except.ok "2020-01-25 01:52:22" ∧
    reFindFirst rfc2822MatchAt "25 Jan 2020 01:52:22 -0500".toList = none ∧
    reFindFirst iso8601MatchAt "25 Jan 2020 01:52:22 -0500".toList = none := by decide

/-- C10: the ISO-8601 regex accepts a space as the date-time separator, but
the fixed strptime format demands the literal T, so date_convert raises on an
input its own pattern matched: the normalizer is not total on matched
strings. -/
theorem iso_space_separator_strptime_fails :
    reFindFirst iso8601MatchAt "2020-01-31 22:10:38+0800".toList
        = some "2020-01-31 22:10:38+0800" ∧
    strptimeIso8601 "2020-01-31 22:10:38+0800" = none ∧
    date_convert "2020-01-31 22:10:38+0800" = Except.error "ValueError: strptime" := by decide

end ScrapeRss
